import Mathlib

/-!
# Verification of canonical/ctxtrace

A shallow embedding of the ctxtrace Go library: trace-identifier policy,
context propagation, and the HTTP boundary adapters (inbound middleware and
outbound transport wrapper).

The repository contains three near-duplicate historical variants of the same
module; they are embedded in three namespaces:

* `TraceGoZap`   — the first document of `src/trace.go` (lines 1–110): the
  zapctx-logging variant with `ContextWithTraceID`, `ContextWithTestingTraceID`,
  `isValidTraceID`, `TraceIDFromRequest`, `SetTraceHeader`.
* `TraceGoPlain` — the second document of `src/trace.go` (lines 111–219):
  plain `WithTraceID` (no empty-string substitution), `Handler`,
  `Transport.RoundTrip`, unconditional-prepend `WithTestingTraceID`.
* `Part002`      — `src/unnamed/part_002`: `WithTraceID` substituting a fresh
  identifier for the empty string, idempotent `WithTestingTraceID`, `Handler`,
  `Transport.RoundTrip`.

`NewTraceID` delegates to the external `github.com/google/uuid` generator
(random I/O); each embedded operation that may call it takes the would-be
generated identifier as an explicit `fresh : String` parameter.  `uuid.Parse`
is likewise external; `isValidTraceID` takes the parse-success predicate as a
parameter `uuidParses : String → Bool`, and `uuidParse36` is a concrete
stand-in used for closed instances.

Go strings are modelled as Lean `String`s viewed as character sequences; the
mutable `http.Header` maps reachable from a request are modelled by an
explicit store (`HeaderStore`) of header maps addressed by `Nat`, so that the
aliasing claims (clone-before-mutate in the transport wrapper, in-place
mutation in `SetTraceHeader`) are about the actual store.
-/

namespace Ctxtrace

/-! ## Constants (src/trace.go:19-23, src/trace.go:127-131, part_002:17-28) -/

def TraceIDHeader : String := "X-Trace-Id"

def traceIDCtx : String := "trace_id"

def testingTraceIDPrefix : String := "testing-"

/-- Model of Go `strings.HasPrefix s pre`: `pre` is a prefix of `s`
(character-level; the sources only use ASCII header values). -/
def goHasPrefix (s pre : String) : Bool :=
  List.isPrefixOf pre.data s.data

/-! ## Context model

Go's `context.Context` is an immutable chain of key/value derivations;
`ctx.Value k` walks the chain innermost-first.  The library stores the trace
identifier as a plain `string` under the private key `traceIDContextKey{}`;
other context users may store arbitrary non-string values under other keys
(`GoVal.nonStr`), and the zapctx logging collaborator stores its fields under
its own private key. -/

/-- A context value: a string, a zap logging field, or some unrelated
non-string value another context user stored. -/
inductive GoVal where
  | str (s : String)
  | logField (k v : String)
  | nonStr (tag : Nat)
deriving DecidableEq, Repr

/-- A context key: the library's private `traceIDContextKey{}`, the zapctx
logging key, or any other user's key. -/
inductive CtxKey where
  | traceIDContextKey
  | zapFieldsKey
  | otherKey (n : Nat)
deriving DecidableEq, Repr

/-- `context.Context`: `background` (`context.Background()`) or a
`context.WithValue` derivation. -/
inductive Ctx where
  | background
  | withValue (parent : Ctx) (key : CtxKey) (val : GoVal)
deriving DecidableEq, Repr

/-- `ctx.Value(k)`: innermost attachment wins, `none` when never attached. -/
def Ctx.value : Ctx → CtxKey → Option GoVal
  | .background, _ => none
  | .withValue parent k v, k' => if k' = k then some v else parent.value k'

/-- `context.WithValue(ctx, traceIDContextKey{}, id)` as used by every
variant when storing the trace identifier. -/
def ctxWithTraceValue (ctx : Ctx) (id : String) : Ctx :=
  Ctx.withValue ctx CtxKey.traceIDContextKey (GoVal.str id)

/-- `TraceIDFromContext` — identical in all three variants
(src/trace.go:71-74, src/trace.go:146-149, part_002:74-77):
`id, _ := ctx.Value(traceIDContextKey{}).(string); return id`.
The failed type assertion yields the zero value `""`. -/
def TraceIDFromContext (ctx : Ctx) : String :=
  match ctx.value CtxKey.traceIDContextKey with
  | some (GoVal.str s) => s
  | _ => ""

/-- `IsTestingTraceID` — identical in all variants (src/trace.go:54-56,
src/trace.go:217-219, part_002:67-69): `strings.HasPrefix(id, testingTraceIDPrefix)`. -/
def IsTestingTraceID (id : String) : Bool :=
  goHasPrefix id testingTraceIDPrefix

/-! ## Variant `TraceGoZap` (src/trace.go lines 1–110) -/

namespace TraceGoZap

/-- Model of the external `zapctx.WithFields(ctx, zap.String(k, v))`: derives
the context with the logging field recorded under zapctx's own private key. -/
def zapctxWithField (ctx : Ctx) (k v : String) : Ctx :=
  Ctx.withValue ctx CtxKey.zapFieldsKey (GoVal.logField k v)

/-- src/trace.go:41-44 (`ContextWithTraceID`). -/
def ContextWithTraceID (ctx : Ctx) (id : String) : Ctx :=
  let ctx := zapctxWithField ctx traceIDCtx id
  ctxWithTraceValue ctx id

/-- src/trace.go:49-51 (`ContextWithTestingTraceID`):
`ContextWithTraceID(ctx, testingTraceIDPrefix+id)` — prepends unconditionally. -/
def ContextWithTestingTraceID (ctx : Ctx) (id : String) : Ctx :=
  ContextWithTraceID ctx (testingTraceIDPrefix ++ id)

/-- src/trace.go:59-68 (`isValidTraceID`); `uuidParses` models success of the
external `uuid.Parse`. -/
def isValidTraceID (uuidParses : String → Bool) (id : String) : Bool :=
  if id == "" then false
  else if IsTestingTraceID id then true
  else uuidParses id

end TraceGoZap

/-! ## Variant `TraceGoPlain` (src/trace.go lines 111–219) -/

namespace TraceGoPlain

/-- src/trace.go:141-143 (`WithTraceID`): stores `id` as given, with no
empty-string substitution. -/
def WithTraceID (ctx : Ctx) (id : String) : Ctx :=
  ctxWithTraceValue ctx id

/-- src/trace.go:211-213 (`WithTestingTraceID`):
`WithTraceID(ctx, testingTraceIDPrefix+id)` — prepends unconditionally. -/
def WithTestingTraceID (ctx : Ctx) (id : String) : Ctx :=
  WithTraceID ctx (testingTraceIDPrefix ++ id)

end TraceGoPlain

/-! ## Variant `Part002` (src/unnamed/part_002) -/

namespace Part002

/-- part_002:41-46 (`WithTraceID`): `if id == "" { id = NewTraceID() }` then
store; `fresh` is the would-be `NewTraceID()` result. -/
def WithTraceID (fresh : String) (ctx : Ctx) (id : String) : Ctx :=
  let id := if id == "" then fresh else id
  ctxWithTraceValue ctx id

/-- The identifier transformation inlined in part_002:54-62
(`WithTestingTraceID` before its final `WithTraceID` call):
`if id == "" { id = NewTraceID() }`; then
`if !strings.HasPrefix(id, testingTraceIDPrefix) { id = testingTraceIDPrefix + id }`. -/
def testingID (fresh id : String) : String :=
  let id := if id == "" then fresh else id
  if !(goHasPrefix id testingTraceIDPrefix) then testingTraceIDPrefix ++ id else id

/-- part_002:54-63 (`WithTestingTraceID`): the transformation above followed
by `WithTraceID`. -/
def WithTestingTraceID (fresh : String) (ctx : Ctx) (id : String) : Ctx :=
  WithTraceID fresh ctx (testingID fresh id)

end Part002

/-! ## HTTP header model

`http.Header` is a mutable `map[string][]string`; requests reference header
maps by pointer, and the transport wrapper's clone step exists precisely to
avoid aliasing.  A header map is an association list; the mutable maps live
in an explicit store addressed by `Nat`, and a request holds the address of
its header map together with its attached context. -/

/-- A `http.Header` value: bindings from header key to value list. -/
abbrev HeaderMap := List (String × List String)

/-- `http.Header.Get k`: first value bound to `k`, or `""` when absent (all
sources use the one fixed key `TraceIDHeader`, so key canonicalisation is
inessential). -/
def headerGet (h : HeaderMap) (k : String) : String :=
  match h.find? (fun e => e.1 == k) with
  | some (_, v :: _) => v
  | _ => ""

/-- `http.Header.Set k v`: bind `k` to the single value `v`, replacing any
existing binding. -/
def headerSet (h : HeaderMap) (k v : String) : HeaderMap :=
  (k, [v]) :: h.filter (fun e => !(e.1 == k))

/-- The store of live header maps; an address is an index into `maps`. -/
structure HeaderStore where
  maps : List HeaderMap
deriving DecidableEq, Repr

/-- Dereference an address (dangling addresses read as the empty map). -/
def HeaderStore.get (st : HeaderStore) (a : Nat) : HeaderMap :=
  st.maps.getD a []

/-- Mutate the map at address `a` in place. -/
def HeaderStore.set (st : HeaderStore) (a : Nat) (m : HeaderMap) : HeaderStore :=
  ⟨st.maps.set a m⟩

/-- Allocate a fresh map (`make(http.Header, …)` plus the copying loop):
returns the extended store and the fresh address. -/
def HeaderStore.alloc (st : HeaderStore) (m : HeaderMap) : HeaderStore × Nat :=
  (⟨st.maps ++ [m]⟩, st.maps.length)

/-- Number of allocated header maps. -/
def HeaderStore.size (st : HeaderStore) : Nat :=
  st.maps.length

/-- An `*http.Request` as far as this library observes it: the address of its
header map and its attached context. -/
structure Request where
  header : Nat
  ctx : Ctx
deriving DecidableEq, Repr

/-! ## HTTP boundary adapters -/

/-- `Transport.RoundTrip` — identical in the two variants that define it
(src/trace.go:181-205 and part_002:116-139).  The wrapped sender `rt` is an
opaque collaborator; the embedding returns the store after the wrapper's own
steps together with the request handed to `rt`.  In the header-present branch
the original request is forwarded as is; otherwise `newReq := *req` gets a
freshly allocated header map holding a copy of the original bindings, the
trace identifier (context value, or `fresh` standing for `NewTraceID()`) is
set on that clone, and the clone is forwarded. -/
def Transport.RoundTrip (fresh : String) (st : HeaderStore) (req : Request) :
    HeaderStore × Request :=
  if headerGet (st.get req.header) TraceIDHeader ≠ "" then
    -- If the request already has a trace header don't overwrite it.
    (st, req)
  else
    let (st, newHeader) := st.alloc (st.get req.header)
    let traceID := TraceIDFromContext req.ctx
    let traceID := if traceID == "" then fresh else traceID
    let st := st.set newHeader (headerSet (st.get newHeader) TraceIDHeader traceID)
    (st, { req with header := newHeader })

/-- What the inbound middleware's wrapped closure produces for one request:
the value written to the response's trace header and the context handed to
the wrapped handler. -/
structure HandlerOutcome where
  responseTraceID : String
  innerCtx : Ctx
deriving DecidableEq, Repr

namespace Part002

/-- part_002:81-90 (`Handler`): read the request's trace header; if empty
substitute `fresh` (for `NewTraceID()`); set it on the response and attach it
to the request's context for the wrapped handler. -/
def Handler (fresh : String) (st : HeaderStore) (r : Request) : HandlerOutcome :=
  let traceID := headerGet (st.get r.header) TraceIDHeader
  let traceID := if traceID == "" then fresh else traceID
  { responseTraceID := traceID, innerCtx := WithTraceID fresh r.ctx traceID }

end Part002

namespace TraceGoPlain

/-- src/trace.go:153-162 (`Handler`): same lines as part_002's, calling this
variant's `WithTraceID`. -/
def Handler (fresh : String) (st : HeaderStore) (r : Request) : HandlerOutcome :=
  let traceID := headerGet (st.get r.header) TraceIDHeader
  let traceID := if traceID == "" then fresh else traceID
  { responseTraceID := traceID, innerCtx := WithTraceID r.ctx traceID }

end TraceGoPlain

namespace TraceGoZap

/-- src/trace.go:93-99 (`TraceIDFromRequest`): the header value when valid,
otherwise `fresh` (for `NewTraceID()`). -/
def TraceIDFromRequest (uuidParses : String → Bool) (fresh : String)
    (st : HeaderStore) (req : Request) : String :=
  let existingTraceID := headerGet (st.get req.header) TraceIDHeader
  if isValidTraceID uuidParses existingTraceID then existingTraceID else fresh

/-- src/trace.go:104-110 (`SetTraceHeader`): take the context's trace id,
replace it by `fresh` (for `NewTraceID()`) when invalid, and `Set` it into the
given request's own header map — mutating that map in place. -/
def SetTraceHeader (uuidParses : String → Bool) (fresh : String) (ctx : Ctx)
    (st : HeaderStore) (req : Request) : HeaderStore :=
  let id := TraceIDFromContext ctx
  let id := if !(isValidTraceID uuidParses id) then fresh else id
  st.set req.header (headerSet (st.get req.header) TraceIDHeader id)

end TraceGoZap

/-- A concrete instantiation of the external `uuid.Parse` success predicate,
covering the canonical `8-4-4-4-12` hyphenated-hex textual form (the format
`NewTraceID`'s `uuid.New().String()` produces).  Used only to build closed
instances of theorems that are parametric in the parse predicate. -/
def uuidParse36 (s : String) : Bool :=
  s.length == 36 &&
  (List.range 36).all (fun i =>
    let c := s.data.getD i ' '
    if i == 8 || i == 13 || i == 18 || i == 23 then c == '-'
    else c.isDigit || ('a' ≤ c && c ≤ 'f') || ('A' ≤ c && c ≤ 'F'))

/-! ## Basic context lemmas -/

theorem ctx_value_withValue_self (ctx : Ctx) (k : CtxKey) (v : GoVal) :
    (Ctx.withValue ctx k v).value k = some v := by
  simp [Ctx.value]

theorem traceIDFromContext_ctxWithTraceValue (ctx : Ctx) (id : String) :
    TraceIDFromContext (ctxWithTraceValue ctx id) = id := by
  simp [TraceIDFromContext, ctxWithTraceValue, Ctx.value]

/-! ## Store and header-map lemmas -/

theorem headerStore_get_alloc_self (st : HeaderStore) (m : HeaderMap) :
    (st.alloc m).1.get (st.alloc m).2 = m := by
  simp [HeaderStore.alloc, HeaderStore.get, List.getD, List.getElem?_append_right]

theorem headerStore_get_alloc_old (st : HeaderStore) (m : HeaderMap) (b : Nat)
    (h : b < st.maps.length) :
    (st.alloc m).1.get b = st.get b := by
  simp [HeaderStore.alloc, HeaderStore.get, List.getD, List.getElem?_append_left, h]

theorem headerStore_get_set_self (st : HeaderStore) (a : Nat) (m : HeaderMap)
    (h : a < st.maps.length) :
    (st.set a m).get a = m := by
  simp [HeaderStore.set, HeaderStore.get, List.getD, List.getElem?_set_self, h]

theorem headerStore_get_set_ne (st : HeaderStore) (a b : Nat) (m : HeaderMap)
    (h : b ≠ a) :
    (st.set a m).get b = st.get b := by
  simp [HeaderStore.set, HeaderStore.get, List.getD, List.getElem?_set_ne (Ne.symm h)]

theorem headerGet_headerSet_self (h : HeaderMap) (k v : String) :
    headerGet (headerSet h k v) k = v := by
  simp [headerGet, headerSet, List.find?]

/-! ## String-prefix lemmas -/

theorem goHasPrefix_append_self (pre s : String) :
    goHasPrefix (pre ++ s) pre = true := by
  simp only [goHasPrefix, String.data_append, List.isPrefixOf_iff_prefix]
  exact List.prefix_append _ _

theorem string_append_ne_empty (pre s : String) (h : pre ≠ "") :
    pre ++ s ≠ "" := by
  intro hc
  apply h
  have hd := congrArg String.data hc
  rw [String.data_append] at hd
  have h2 := List.append_eq_nil.mp hd
  cases pre with
  | mk l => cases h2.1; rfl

/-- Reduction of `Transport.RoundTrip` in the absent-header branch: allocate
a clone of the request's header map, set the trace header on the clone, and
forward the re-addressed request. -/
theorem roundTrip_eq_of_absent (fresh : String) (st : HeaderStore) (req : Request)
    (habs : headerGet (st.get req.header) TraceIDHeader = "") :
    Transport.RoundTrip fresh st req =
      ((⟨st.maps ++ [st.get req.header]⟩ : HeaderStore).set st.maps.length
          (headerSet (st.get req.header) TraceIDHeader
            (if TraceIDFromContext req.ctx = "" then fresh else TraceIDFromContext req.ctx)),
        { req with header := st.maps.length }) := by
  rw [Transport.RoundTrip, if_neg (by simp [habs])]
  have hget : ((⟨st.maps ++ [st.get req.header]⟩ : HeaderStore) : HeaderStore).get
      st.maps.length = st.get req.header := headerStore_get_alloc_self st _
  simp [HeaderStore.alloc, hget]

/-! ## Claim C2 -/

/-- C2: when the outgoing request's trace header is already a non-empty `Y`,
`Transport.RoundTrip` (src/trace.go:188-191, part_002:122-125) forwards the
request unmodified — same store, same request, header still exactly `Y` —
whatever identifier the attached context carries. -/
theorem roundTrip_preserves_existing_header (fresh : String) (st : HeaderStore)
    (req : Request) (h : headerGet (st.get req.header) TraceIDHeader ≠ "") :
    Transport.RoundTrip fresh st req = (st, req) ∧
    headerGet ((Transport.RoundTrip fresh st req).1.get
        (Transport.RoundTrip fresh st req).2.header) TraceIDHeader
      = headerGet (st.get req.header) TraceIDHeader := by
  have heq : Transport.RoundTrip fresh st req = (st, req) := by
    rw [Transport.RoundTrip, if_pos h]
  exact ⟨heq, by rw [heq]⟩

/-- Closed instance of `roundTrip_preserves_existing_header`: explicit header
`Y-explicit`, ambient context identifier `Z-ambient`; the sent header stays
`Y-explicit`. -/
theorem roundTrip_preserves_existing_header_witness :
    Transport.RoundTrip "fresh-id" (⟨[[(TraceIDHeader, ["Y-explicit"])]]⟩ : HeaderStore)
        ⟨0, ctxWithTraceValue Ctx.background "Z-ambient"⟩
      = ((⟨[[(TraceIDHeader, ["Y-explicit"])]]⟩ : HeaderStore),
         ⟨0, ctxWithTraceValue Ctx.background "Z-ambient"⟩) ∧
    headerGet ((⟨[[(TraceIDHeader, ["Y-explicit"])]]⟩ : HeaderStore).get 0) TraceIDHeader
      = "Y-explicit" := by
  have h := roundTrip_preserves_existing_header "fresh-id"
    (⟨[[(TraceIDHeader, ["Y-explicit"])]]⟩ : HeaderStore)
    ⟨0, ctxWithTraceValue Ctx.background "Z-ambient"⟩ (by decide)
  exact ⟨h.1, by decide⟩

/-! ## Claim C4 -/

/-- C4: when the outgoing request's trace header is absent,
`Transport.RoundTrip` (part_002:127-138) forwards a cloned request whose
header map lives at a fresh address, equals the original bindings with the
trace header set on the clone, and whose trace header is exactly the context
identifier `Z` when `Z ≠ ""` and the freshly generated identifier otherwise
(non-empty whenever the generated identifier is); the attached context is
unchanged. -/
theorem roundTrip_sets_header_on_clone (fresh : String) (st : HeaderStore)
    (req : Request) (habs : headerGet (st.get req.header) TraceIDHeader = "") :
    (Transport.RoundTrip fresh st req).2.header = st.maps.length ∧
    (Transport.RoundTrip fresh st req).2.ctx = req.ctx ∧
    (Transport.RoundTrip fresh st req).1.get (Transport.RoundTrip fresh st req).2.header
      = headerSet (st.get req.header) TraceIDHeader
          (if TraceIDFromContext req.ctx = "" then fresh else TraceIDFromContext req.ctx) ∧
    headerGet ((Transport.RoundTrip fresh st req).1.get
        (Transport.RoundTrip fresh st req).2.header) TraceIDHeader
      = (if TraceIDFromContext req.ctx = "" then fresh else TraceIDFromContext req.ctx) ∧
    (fresh ≠ "" →
      headerGet ((Transport.RoundTrip fresh st req).1.get
        (Transport.RoundTrip fresh st req).2.header) TraceIDHeader ≠ "") := by
  rw [roundTrip_eq_of_absent fresh st req habs]
  have hself : ((⟨st.maps ++ [st.get req.header]⟩ : HeaderStore).set st.maps.length
        (headerSet (st.get req.header) TraceIDHeader
          (if TraceIDFromContext req.ctx = "" then fresh
            else TraceIDFromContext req.ctx))).get st.maps.length
      = headerSet (st.get req.header) TraceIDHeader
          (if TraceIDFromContext req.ctx = "" then fresh
            else TraceIDFromContext req.ctx) :=
    headerStore_get_set_self _ _ _ (by simp)
  refine ⟨rfl, rfl, hself, ?_, ?_⟩
  · rw [hself]
    exact headerGet_headerSet_self _ _ _
  · intro hf
    rw [hself, headerGet_headerSet_self]
    by_cases hz : TraceIDFromContext req.ctx = ""
    · rw [if_pos hz]; exact hf
    · rw [if_neg hz]; exact hz

/-- Closed instance of `roundTrip_sets_header_on_clone`: no trace header,
ambient context identifier `Z-ambient`; the sent request uses the fresh
address 1 and carries header `Z-ambient`. -/
theorem roundTrip_sets_header_on_clone_witness :
    (Transport.RoundTrip "fresh-id" (⟨[[("Accept", ["*"])]]⟩ : HeaderStore)
        ⟨0, ctxWithTraceValue Ctx.background "Z-ambient"⟩).2.header = 1 ∧
    headerGet ((Transport.RoundTrip "fresh-id" (⟨[[("Accept", ["*"])]]⟩ : HeaderStore)
          ⟨0, ctxWithTraceValue Ctx.background "Z-ambient"⟩).1.get
        (Transport.RoundTrip "fresh-id" (⟨[[("Accept", ["*"])]]⟩ : HeaderStore)
          ⟨0, ctxWithTraceValue Ctx.background "Z-ambient"⟩).2.header) TraceIDHeader
      = "Z-ambient" := by
  have h := roundTrip_sets_header_on_clone "fresh-id" (⟨[[("Accept", ["*"])]]⟩ : HeaderStore)
    ⟨0, ctxWithTraceValue Ctx.background "Z-ambient"⟩ (by decide)
  refine ⟨h.1, ?_⟩
  rw [h.2.2.2.1]
  decide

/-! ## Claim C5 -/

/-- C5: in the absent-header branch, `Transport.RoundTrip`
(src/trace.go:193-198, part_002:127-132) never mutates the header map of the
request it was given: the map at the original request's address is unchanged
afterwards — the trace header is added only to the clone. -/
theorem roundTrip_does_not_mutate_original_header (fresh : String)
    (st : HeaderStore) (req : Request) (hwf : req.header < st.maps.length)
    (habs : headerGet (st.get req.header) TraceIDHeader = "") :
    (Transport.RoundTrip fresh st req).1.get req.header = st.get req.header := by
  rw [roundTrip_eq_of_absent fresh st req habs]
  rw [headerStore_get_set_ne _ _ _ _ (Nat.ne_of_lt hwf)]
  exact headerStore_get_alloc_old st _ _ hwf

/-- Closed instance of `roundTrip_does_not_mutate_original_header`: after the
call, the original request's header map still holds only its `Accept`
binding and no trace header. -/
theorem roundTrip_does_not_mutate_original_header_witness :
    (Transport.RoundTrip "fresh-id" (⟨[[("Accept", ["*"])]]⟩ : HeaderStore)
        ⟨0, ctxWithTraceValue Ctx.background "Z-ambient"⟩).1.get 0
      = [("Accept", ["*"])] := by
  have h := roundTrip_does_not_mutate_original_header "fresh-id"
    (⟨[[("Accept", ["*"])]]⟩ : HeaderStore)
    ⟨0, ctxWithTraceValue Ctx.background "Z-ambient"⟩ (by decide) (by decide)
  rw [h]
  decide

/-! ## Claim C9 -/

/-- C9: `SetTraceHeader` (src/trace.go:104-110) mutates the given request's
own header map in place — same address, no allocation — and unconditionally
sets the trace header to the context's identifier when valid, else to the
freshly generated one; any previously present header value is overwritten
(the statement holds for every store, in particular one already carrying a
trace header). -/
theorem setTraceHeader_overwrites_in_place (uuidParses : String → Bool)
    (fresh : String) (ctx : Ctx) (st : HeaderStore) (req : Request)
    (hwf : req.header < st.maps.length) :
    (TraceGoZap.SetTraceHeader uuidParses fresh ctx st req).maps.length
      = st.maps.length ∧
    (TraceGoZap.SetTraceHeader uuidParses fresh ctx st req).get req.header
      = headerSet (st.get req.header) TraceIDHeader
          (if TraceGoZap.isValidTraceID uuidParses (TraceIDFromContext ctx)
            then TraceIDFromContext ctx else fresh) ∧
    headerGet ((TraceGoZap.SetTraceHeader uuidParses fresh ctx st req).get req.header)
        TraceIDHeader
      = (if TraceGoZap.isValidTraceID uuidParses (TraceIDFromContext ctx)
          then TraceIDFromContext ctx else fresh) := by
  have heq : TraceGoZap.SetTraceHeader uuidParses fresh ctx st req
      = st.set req.header (headerSet (st.get req.header) TraceIDHeader
          (if TraceGoZap.isValidTraceID uuidParses (TraceIDFromContext ctx)
            then TraceIDFromContext ctx else fresh)) := by
    rw [TraceGoZap.SetTraceHeader]
    cases hv : TraceGoZap.isValidTraceID uuidParses (TraceIDFromContext ctx) <;> simp [hv]
  rw [heq]
  refine ⟨by simp [HeaderStore.set], headerStore_get_set_self _ _ _ hwf, ?_⟩
  rw [headerStore_get_set_self _ _ _ hwf]
  exact headerGet_headerSet_self _ _ _

/-- Closed instance of `setTraceHeader_overwrites_in_place`: the request
already carries trace header `old-value` and the context identifier is the
invalid `""`, so the header is overwritten with the fresh identifier — in
contrast to the transport wrapper's never-overwrite rule. -/
theorem setTraceHeader_overwrites_in_place_witness :
    (TraceGoZap.SetTraceHeader uuidParse36 "9f1c8a5e-3b7d-4c2a-9e6f-0d5b8c7a4e21"
        Ctx.background (⟨[[(TraceIDHeader, ["old-value"])]]⟩ : HeaderStore)
        ⟨0, Ctx.background⟩).maps.length = 1 ∧
    headerGet ((TraceGoZap.SetTraceHeader uuidParse36
          "9f1c8a5e-3b7d-4c2a-9e6f-0d5b8c7a4e21" Ctx.background
          (⟨[[(TraceIDHeader, ["old-value"])]]⟩ : HeaderStore)
          ⟨0, Ctx.background⟩).get 0) TraceIDHeader
      = "9f1c8a5e-3b7d-4c2a-9e6f-0d5b8c7a4e21" := by
  have h := setTraceHeader_overwrites_in_place uuidParse36
    "9f1c8a5e-3b7d-4c2a-9e6f-0d5b8c7a4e21" Ctx.background
    (⟨[[(TraceIDHeader, ["old-value"])]]⟩ : HeaderStore) ⟨0, Ctx.background⟩ (by decide)
  refine ⟨h.1, ?_⟩
  rw [h.2.2]
  decide

/-! ## Claim C6 -/

/-- C6 counterexample: the claim cites `WithTraceID` at src/trace.go:141-143,
which stores the given identifier with no empty-string substitution, so
attaching `""` there stores `""` and reading it back yields `""` — refuting
"reading the trace ID back from the derived context never yields the empty
string through this path" at the concrete input `(context.Background(), "")`. -/
theorem withTraceID_empty_stored_cex :
    TraceIDFromContext (TraceGoPlain.WithTraceID Ctx.background "") = "" := by
  simp [TraceGoPlain.WithTraceID, traceIDFromContext_ctxWithTraceValue]

/-- C6 (amended): in the part_002 variant, `WithTraceID` with `id = ""`
stores the freshly generated identifier instead, so lookup on the derived
context yields that fresh identifier and never `""`; the historical
`WithTraceID` of src/trace.go:141-143 stores the empty string unchanged. -/
theorem part002_withTraceID_empty_generates (ctx : Ctx) (fresh : String)
    (h : fresh ≠ "") :
    TraceIDFromContext (Part002.WithTraceID fresh ctx "") = fresh ∧
    TraceIDFromContext (Part002.WithTraceID fresh ctx "") ≠ "" := by
  refine ⟨?_, ?_⟩ <;>
    simp [Part002.WithTraceID, traceIDFromContext_ctxWithTraceValue, h]

/-- Closed instance of `part002_withTraceID_empty_generates`. -/
theorem part002_withTraceID_empty_generates_witness :
    TraceIDFromContext (Part002.WithTraceID "9f1c8a5e-3b7d-4c2a-9e6f-0d5b8c7a4e21"
        Ctx.background "") = "9f1c8a5e-3b7d-4c2a-9e6f-0d5b8c7a4e21" ∧
    TraceIDFromContext (Part002.WithTraceID "9f1c8a5e-3b7d-4c2a-9e6f-0d5b8c7a4e21"
        Ctx.background "") ≠ "" :=
  part002_withTraceID_empty_generates Ctx.background _ (by decide)

/-! ## Claim C7 -/

/-- C7: round-trip of context attachment for part_002's `WithTraceID`
(part_002:41-46, lookup part_002:72-77): attaching any non-empty identifier
(in particular any non-empty valid one) and reading it back yields the same
identifier, and attaching twice yields only the second attachment. -/
theorem withTraceID_roundtrip_and_last_wins (fresh : String) (ctx : Ctx)
    (id id2 : String) (h : id ≠ "") (h2 : id2 ≠ "") :
    TraceIDFromContext (Part002.WithTraceID fresh ctx id) = id ∧
    TraceIDFromContext
      (Part002.WithTraceID fresh (Part002.WithTraceID fresh ctx id) id2) = id2 := by
  refine ⟨?_, ?_⟩ <;>
    simp [Part002.WithTraceID, traceIDFromContext_ctxWithTraceValue, h, h2]

/-- Closed instance of `withTraceID_roundtrip_and_last_wins` at two concrete
standard identifiers. -/
theorem withTraceID_roundtrip_and_last_wins_witness :
    TraceIDFromContext (Part002.WithTraceID "" Ctx.background
        "9f1c8a5e-3b7d-4c2a-9e6f-0d5b8c7a4e21")
      = "9f1c8a5e-3b7d-4c2a-9e6f-0d5b8c7a4e21" ∧
    TraceIDFromContext (Part002.WithTraceID "" (Part002.WithTraceID "" Ctx.background
        "9f1c8a5e-3b7d-4c2a-9e6f-0d5b8c7a4e21")
        "2b6a9c4d-8e1f-4a3b-b5c6-7d8e9f0a1b2c")
      = "2b6a9c4d-8e1f-4a3b-b5c6-7d8e9f0a1b2c" :=
  withTraceID_roundtrip_and_last_wins "" Ctx.background _ _ (by decide) (by decide)

/-! ## Claim C10 -/

/-- C10: `TraceIDFromContext` is a total function (by construction in this
embedding, matching the Go code's non-panicking comma-ok type assertion);
whenever the context carries no string under the private trace key — nothing
at all, or a non-string value — it returns `""`. -/
theorem traceIDFromContext_total_default_empty (ctx : Ctx)
    (h : ∀ s, ctx.value CtxKey.traceIDContextKey ≠ some (GoVal.str s)) :
    TraceIDFromContext ctx = "" := by
  unfold TraceIDFromContext
  split
  · next s heq => exact absurd heq (h s)
  · rfl

/-- Closed instance of `traceIDFromContext_total_default_empty` on a context
carrying a non-string value under the trace key. -/
theorem traceIDFromContext_total_default_empty_witness :
    TraceIDFromContext
      (Ctx.withValue Ctx.background CtxKey.traceIDContextKey (GoVal.nonStr 0)) = "" :=
  traceIDFromContext_total_default_empty _ (by intro s hs; simp [Ctx.value] at hs)

/-! ## Claim C3 -/

/-- C3 counterexample: the cited `ContextWithTestingTraceID`
(src/trace.go:49-51) prepends the testing prefix unconditionally, so applying
the operation a second time — to the already-prefixed identifier the first
application stored — yields `testing-testing-x`, not the same result as
applying it once (`testing-x`): the operation is not idempotent and
double-prefixes. -/
theorem contextWithTestingTraceID_double_prefix_cex :
    TraceIDFromContext (TraceGoZap.ContextWithTestingTraceID Ctx.background
        (TraceIDFromContext (TraceGoZap.ContextWithTestingTraceID Ctx.background "x")))
      ≠ TraceIDFromContext (TraceGoZap.ContextWithTestingTraceID Ctx.background "x") := by
  decide

/-- C3 (amended): part_002's `WithTestingTraceID` (part_002:54-63) checks for
the prefix before prepending, so its identifier transformation `testingID` is
idempotent for every non-empty `s` and never introduces a second prefix; the
older trace.go variants (`ContextWithTestingTraceID`, src/trace.go:49-51, and
`WithTestingTraceID`, src/trace.go:211-213) prepend unconditionally and do
double-prefix an already-prefixed identifier. -/
theorem part002_testingID_idempotent (fresh s : String) (h : s ≠ "") :
    Part002.testingID fresh (Part002.testingID fresh s) = Part002.testingID fresh s ∧
    (goHasPrefix s testingTraceIDPrefix = false →
      goHasPrefix (Part002.testingID fresh s)
        (testingTraceIDPrefix ++ testingTraceIDPrefix) = false) := by
  cases hp : goHasPrefix s testingTraceIDPrefix with
  | true =>
    have h1 : Part002.testingID fresh s = s := by simp [Part002.testingID, h, hp]
    refine ⟨?_, ?_⟩
    · rw [h1]
      exact h1
    · intro hc
      exact absurd hc (by decide)
  | false =>
    have h1 : Part002.testingID fresh s = testingTraceIDPrefix ++ s := by
      simp [Part002.testingID, h, hp]
    have hne2 : testingTraceIDPrefix ++ s ≠ "" :=
      string_append_ne_empty _ _ (by decide)
    have hp' : ¬ testingTraceIDPrefix.data <+: s.data := by
      intro hq
      have hg : goHasPrefix s testingTraceIDPrefix = true := by
        unfold goHasPrefix
        exact List.isPrefixOf_iff_prefix.mpr hq
      rw [hp] at hg
      exact Bool.false_ne_true hg
    refine ⟨?_, ?_⟩
    · rw [h1]
      simp [Part002.testingID, hne2, goHasPrefix_append_self]
    · intro _
      rw [h1]
      rw [Bool.eq_false_iff]
      intro hc
      unfold goHasPrefix at hc
      rw [String.data_append, String.data_append] at hc
      have hc' := List.isPrefixOf_iff_prefix.mp hc
      rw [List.prefix_append_right_inj] at hc'
      exact hp' hc'

/-- Closed instance of `part002_testingID_idempotent` at `s = "x"`. -/
theorem part002_testingID_idempotent_witness :
    Part002.testingID "fresh-id" (Part002.testingID "fresh-id" "x")
      = Part002.testingID "fresh-id" "x" ∧
    (goHasPrefix "x" testingTraceIDPrefix = false →
      goHasPrefix (Part002.testingID "fresh-id" "x")
        (testingTraceIDPrefix ++ testingTraceIDPrefix) = false) :=
  part002_testingID_idempotent "fresh-id" "x" (by decide)

/-! ## Claim C8 -/

/-- C8: `isValidTraceID` (src/trace.go:58-68) decides validity exactly as
claimed: `false` on `""`; `true` on any testing-prefixed string with no
validation of the suffix; on every other string exactly the verdict of the
standard-identifier (UUID) parser, for any parse predicate. -/
theorem isValidTraceID_spec (uuidParses : String → Bool) :
    TraceGoZap.isValidTraceID uuidParses "" = false ∧
    (∀ s : String,
      TraceGoZap.isValidTraceID uuidParses (testingTraceIDPrefix ++ s) = true) ∧
    (∀ s : String, s ≠ "" → IsTestingTraceID s = false →
      TraceGoZap.isValidTraceID uuidParses s = uuidParses s) := by
  refine ⟨rfl, ?_, ?_⟩
  · intro s
    have hne : testingTraceIDPrefix ++ s ≠ "" :=
      string_append_ne_empty _ _ (by decide)
    have hpre : IsTestingTraceID (testingTraceIDPrefix ++ s) = true :=
      goHasPrefix_append_self _ _
    simp [TraceGoZap.isValidTraceID, hne, hpre]
  · intro s h1 h2
    simp [TraceGoZap.isValidTraceID, h1, h2]

/-- Closed instance of `isValidTraceID_spec`: empty string invalid, a
testing-prefixed garbage suffix valid, and a plain garbage string judged
exactly by the parse predicate. -/
theorem isValidTraceID_spec_witness :
    TraceGoZap.isValidTraceID uuidParse36 "" = false ∧
    TraceGoZap.isValidTraceID uuidParse36 (testingTraceIDPrefix ++ "junk !! value") = true ∧
    TraceGoZap.isValidTraceID uuidParse36 "abc-123-invalid"
      = uuidParse36 "abc-123-invalid" := by
  have h := isValidTraceID_spec uuidParse36
  exact ⟨h.1, h.2.1 "junk !! value", h.2.2 "abc-123-invalid" (by decide) (by decide)⟩

/-! ## Claim C1 -/

/-- C1 counterexample: with the supplied header `abc-123-invalid` — which has
no testing prefix and is not in the standard-identifier format — `Handler`
(part_002:81-90, identically src/trace.go:153-162) echoes the supplied value
to the response header instead of generating a fresh identifier different
from it. -/
theorem handler_echoes_invalid_header_cex :
    (Part002.Handler "9f1c8a5e-3b7d-4c2a-9e6f-0d5b8c7a4e21"
        (⟨[[(TraceIDHeader, ["abc-123-invalid"])]]⟩ : HeaderStore)
        ⟨0, Ctx.background⟩).responseTraceID = "abc-123-invalid" ∧
    IsTestingTraceID "abc-123-invalid" = false ∧
    uuidParse36 "abc-123-invalid" = false := by
  refine ⟨by decide, by decide, by decide⟩

/-- C1 (amended): the inbound middleware `Handler` (part_002:81-90, likewise
src/trace.go:153-162) generates a fresh identifier only when the trace header
is absent or empty; any non-empty header value — valid or not per the
Identifier Policy — is trusted: it is echoed to the response header and
attached to the request's context unchanged. -/
theorem handler_fresh_only_when_header_empty (fresh : String) (st : HeaderStore)
    (r : Request) :
    (headerGet (st.get r.header) TraceIDHeader = "" →
      (Part002.Handler fresh st r).responseTraceID = fresh) ∧
    (headerGet (st.get r.header) TraceIDHeader ≠ "" →
      (Part002.Handler fresh st r).responseTraceID
        = headerGet (st.get r.header) TraceIDHeader ∧
      TraceIDFromContext (Part002.Handler fresh st r).innerCtx
        = headerGet (st.get r.header) TraceIDHeader) := by
  constructor
  · intro h
    simp [Part002.Handler, h]
  · intro h
    refine ⟨by simp [Part002.Handler, h], ?_⟩
    simp [Part002.Handler, h, Part002.WithTraceID, traceIDFromContext_ctxWithTraceValue]

/-- Closed instance of `handler_fresh_only_when_header_empty`: empty header
yields the fresh identifier; header `abc-123-invalid` is echoed. -/
theorem handler_fresh_only_when_header_empty_witness :
    (Part002.Handler "fresh-id" (⟨[[]]⟩ : HeaderStore)
        ⟨0, Ctx.background⟩).responseTraceID = "fresh-id" ∧
    (Part002.Handler "fresh-id" (⟨[[(TraceIDHeader, ["abc-123-invalid"])]]⟩ : HeaderStore)
        ⟨0, Ctx.background⟩).responseTraceID = "abc-123-invalid" := by
  refine ⟨(handler_fresh_only_when_header_empty "fresh-id" (⟨[[]]⟩ : HeaderStore)
    ⟨0, Ctx.background⟩).1 (by decide), ?_⟩
  have h := (handler_fresh_only_when_header_empty "fresh-id"
    (⟨[[(TraceIDHeader, ["abc-123-invalid"])]]⟩ : HeaderStore) ⟨0, Ctx.background⟩).2
    (by decide)
  rw [h.1]
  decide

end Ctxtrace
